import Mathlib

/-!
Shallow embedding of src/include/sk/semver.hpp (a SemVer parsing and
comparison library).  Strings are modelled as lists of characters
(String.data); machine integers as Nat with explicit bounds where the
C++ uses std::uint64_t; functions that throw are modelled as
Except String valued functions whose error carries the C++ message.
-/

set_option maxRecDepth 4000

deriving instance DecidableEq for Except

/-- The character class used by both prerelease and build-metadata
identifier validation in the source: std::isalnum(c) || c == '-'
(the default C locale, i.e. ASCII alphanumerics). -/
def isIdentChar (c : Char) : Bool :=
  c.isAlphanum || c == '-'

/-- Decimal digit, as tested by the pattern character class \d. -/
def isDigitC (c : Char) : Bool :=
  c.isDigit

/-- Numeric value of a decimal digit string (the mathematical value
std::stoull computes on an all-digit input, before any range check). -/
def digitsToNat (l : List Char) : Nat :=
  l.foldl (fun n c => n * 10 + (c.toNat - 48)) 0

/-- Split a character list at every occurrence of the given delimiter,
keeping empty segments; mirrors prerelease::split (which always emits the
final segment, so the result is never empty). -/
def splitOnC (d : Char) : List Char → List (List Char)
  | [] => [[]]
  | c :: cs =>
    if c = d then [] :: splitOnC d cs
    else
      match splitOnC d cs with
      | [] => [[c]]
      | s :: rest => (c :: s) :: rest

/-- Split on the dot delimiter, as prerelease::split does. -/
def splitOnDot (l : List Char) : List (List Char) :=
  splitOnC '.' l

/-- Three-way comparison of two characters by code point, as the
std::string_view spaceship operator compares elements. -/
def charCmp (a b : Char) : Ordering :=
  if a < b then .lt else if b < a then .gt else .eq

/-- Lexicographic three-way comparison of sequences given an element
comparison; this is exactly std::lexicographical_compare_three_way, the
semantics of operator<=> on std::string_view and std::vector. -/
def listCmp (cmp : α → α → Ordering) : List α → List α → Ordering
  | [], [] => .eq
  | [], _ :: _ => .lt
  | _ :: _, [] => .gt
  | a :: as, b :: bs =>
    match cmp a b with
    | .eq => listCmp cmp as bs
    | o => o

/-- prerelease::part::parse: requires a non-empty identifier over
[0-9A-Za-z-]; then rejects any identifier of size > 1 whose first
character is the digit zero.  Error messages are the ones thrown. -/
def prerelease.part.parse (text : List Char) : Except String (List Char) :=
  if text.isEmpty || !text.all isIdentChar then
    .error "Empty prerelease part."
  else if 1 < text.length ∧ text.headI = '0' then
    .error "Leading zero in prerelease part."
  else
    .ok text

/-- prerelease::part::operator<=>: compares the stored string_views
lexicographically by character code. -/
def prerelease.part.cmp (a b : List Char) : Ordering :=
  listCmp charCmp a b

/-- prerelease::operator<=>: compares the parts_ vectors with the
vector spaceship operator (element-wise lexicographic, shorter prefix
ranks lower). -/
def prerelease.cmp (a b : List (List Char)) : Ordering :=
  listCmp prerelease.part.cmp a b

/-- The loop inside prerelease::parse: validate each split segment with
part::parse in order; the first exception aborts the whole parse. -/
def prerelease.parseParts : List (List Char) → Except String (List (List Char))
  | [] => .ok []
  | t :: ts =>
    match prerelease.part.parse t with
    | .error e => .error e
    | .ok v =>
      match prerelease.parseParts ts with
      | .error e => .error e
      | .ok vs => .ok (v :: vs)

/-- prerelease::parse: the empty string yields the default (empty)
prerelease; otherwise the string is split on dots and every segment is
validated. -/
def prerelease.parse (str : List Char) : Except String (List (List Char)) :=
  if str.isEmpty then .ok []
  else prerelease.parseParts (splitOnDot str)

/-- build_meta::parse: requires a non-empty string over [0-9A-Za-z-];
note it performs no dot-splitting, so a dot in the text fails the
character check. -/
def build_meta.parse (text : List Char) : Except String (List Char) :=
  if text.isEmpty || !text.all isIdentChar then
    .error "Empty build meta."
  else
    .ok text

/-!
The anchored ECMAScript patterns of the two parsing policies,
embedded as deterministic full-string matchers.  The patterns only use
the character classes \d, [a-zA-Z-], [0-9a-zA-Z-] plus the literal
separators dot, hyphen-before-prerelease and plus-before-build, none of
which belongs to any class in a position where it also separates, so an
anchored match decomposes the input uniquely and a backtracking engine
accepts exactly the decompositions below.
-/

/-- Capture groups of a successful pattern match: major, minor, patch,
whole prerelease text, whole build-metadata text (std::cmatch groups
one to five). -/
structure RMatch where
  g1 : Option (List Char)
  g2 : Option (List Char)
  g3 : Option (List Char)
  g4 : Option (List Char)
  g5 : Option (List Char)
deriving DecidableEq, Repr

/-- Language of the numeric-field group in both patterns, the
alternation of a lone zero digit and a nonzero-leading digit string. -/
def numericCore (s : List Char) : Bool :=
  !s.isEmpty && s.all isDigitC && (s.length == 1 || s.headI != '0')

/-- Language of one prerelease identifier in both patterns: the
alternation of a lone zero, a nonzero-leading digit string, and any
string over [0-9a-zA-Z-] containing a non-digit.  Equivalently: a
non-empty identifier-character string that, when purely numeric and
longer than one character, does not start with zero. -/
def preIdentOk (s : List Char) : Bool :=
  !s.isEmpty && s.all isIdentChar &&
    (!s.all isDigitC || s.length == 1 || s.headI != '0')

/-- Language of one build-metadata identifier in both patterns:
a non-empty string over [0-9a-zA-Z-]. -/
def buildIdentOk (s : List Char) : Bool :=
  !s.isEmpty && s.all isIdentChar

/-- Group four of both patterns: one or more dot-separated prerelease
identifiers. -/
def group4Ok (s : List Char) : Bool :=
  (splitOnDot s).all preIdentOk

/-- Group five of both patterns: one or more dot-separated
build-metadata identifiers. -/
def group5Ok (s : List Char) : Bool :=
  (splitOnDot s).all buildIdentOk

/-- Break the input at the first hyphen, which (once the build suffix
has been removed) separates the numeric triple from the prerelease
text; no hyphen yields no prerelease group. -/
def breakAtDash : List Char → List Char × Option (List Char)
  | [] => ([], none)
  | c :: cs =>
    if c = '-' then ([], some cs)
    else
      let (a, b) := breakAtDash cs
      (c :: a, b)

/-- Check an optional capture group against a group language. -/
def optOk (p : List Char → Bool) : Option (List Char) → Bool
  | none => true
  | some t => p t

/-- Assemble a strict match from the numeric part and the optional
prerelease and build texts: the strict pattern requires exactly three
dot-separated numeric fields. -/
def mkStrict (num : List Char) (pre bld : Option (List Char)) : Option RMatch :=
  match splitOnDot num with
  | [a, b, c] =>
    if numericCore a && numericCore b && numericCore c &&
       optOk group4Ok pre && optOk group5Ok bld then
      some ⟨some a, some b, some c, pre, bld⟩
    else none
  | _ => none

/-- Drop the optional leading letter v permitted by the loose pattern. -/
def stripV : List Char → List Char
  | 'v' :: rest => rest
  | l => l

/-- Assemble a loose match: after the optional v, one mandatory numeric
field and up to two further optional numeric fields. -/
def mkLoose (num0 : List Char) (pre bld : Option (List Char)) : Option RMatch :=
  match splitOnDot (stripV num0) with
  | [a] =>
    if numericCore a && optOk group4Ok pre && optOk group5Ok bld then
      some ⟨some a, none, none, pre, bld⟩
    else none
  | [a, b] =>
    if numericCore a && numericCore b && optOk group4Ok pre && optOk group5Ok bld then
      some ⟨some a, some b, none, pre, bld⟩
    else none
  | [a, b, c] =>
    if numericCore a && numericCore b && numericCore c &&
       optOk group4Ok pre && optOk group5Ok bld then
      some ⟨some a, some b, some c, pre, bld⟩
    else none
  | _ => none

/-- Decompose the input around the optional build and prerelease
separators: at most one plus sign may occur and it starts the build
text; within the part before it, the first hyphen starts the
prerelease text. -/
def matchParts (s : List Char) : Option (List Char × Option (List Char) × Option (List Char)) :=
  match splitOnC '+' s with
  | [whole] =>
    let (num, pre) := breakAtDash whole
    some (num, pre, none)
  | [core, b] =>
    let (num, pre) := breakAtDash core
    some (num, pre, some b)
  | _ => none

/-- Anchored match of detail::strict_version_parsing_policy::kPattern. -/
def strictMatch (s : List Char) : Option RMatch :=
  match matchParts s with
  | none => none
  | some (num, pre, bld) => mkStrict num pre bld

/-- Anchored match of detail::loose_version_parsing_policy::kPattern. -/
def looseMatch (s : List Char) : Option RMatch :=
  match matchParts s with
  | none => none
  | some (num, pre, bld) => mkLoose num pre bld

/-- The two parsing-policy template arguments of sk::version. -/
inductive Policy
  | strict
  | loose
deriving DecidableEq, Repr

/-- The anchored match against the chosen Policy::kPattern. -/
def Policy.kMatch (p : Policy) : List Char → Option RMatch :=
  match p with
  | .strict => strictMatch
  | .loose => looseMatch

/-- Policy::validateSchema for both policies.  The strict policy checks
groups one, two and three but (as written in the source) throws the
major-required message for a missing group two as well; the loose
policy checks only group one. -/
def Policy.validateSchema (p : Policy) (m : RMatch) : Except String Unit :=
  match p with
  | .strict =>
    if m.g1.isNone then .error "Major version is required"
    else if m.g2.isNone then .error "Major version is required"
    else if m.g3.isNone then .error "Patch version is required"
    else .ok ()
  | .loose =>
    if m.g1.isNone then .error "Major version is required"
    else .ok ()

/-- detail::convertNumeric: std::stoull on the captured digit string,
with any exception (out_of_range past the unsigned 64-bit maximum, or
invalid_argument on a non-numeric start) rethrown as the part name. -/
def convertNumeric (number : List Char) (partName : String) : Except String Nat :=
  if !number.isEmpty && number.all isDigitC then
    if digitsToNat number < 2 ^ 64 then .ok (digitsToNat number)
    else .error partName
  else .error partName

/-- The sk::version value: the numeric triple plus the prerelease
parts_ vector and the build_meta value_; default members are the empty
prerelease and empty build text. -/
structure version where
  major_ : Nat
  minor_ : Nat
  patch_ : Nat
  prerelease_ : List (List Char)
  build_meta_ : List Char
deriving DecidableEq, Repr

/-- Body of the try block of version::parse: schema validation, the
three numeric conversions (minor and patch defaulting to zero when
their groups are absent), then prerelease and build-metadata parsing;
the first exception aborts the block. -/
def version.parseFields (p : Policy) (m : RMatch) : Except String version :=
  (p.validateSchema m).bind fun _ =>
  (convertNumeric (m.g1.getD []) "major").bind fun major =>
  (match m.g2 with
    | some t => convertNumeric t "minor"
    | none => .ok 0).bind fun minor =>
  (match m.g3 with
    | some t => convertNumeric t "patch"
    | none => .ok 0).bind fun patch =>
  (match m.g4 with
    | some t => prerelease.parse t
    | none => .ok []).bind fun prerel =>
  (match m.g5 with
    | some t => build_meta.parse t
    | none => .ok []).bind fun meta =>
  .ok ⟨major, minor, patch, prerel, meta⟩

/-- version::parse: a failed anchored pattern match throws the generic
invalid-version-string error; any exception inside the try block is
rethrown wrapped in the failed-to-parse context message. -/
def version.parse (p : Policy) (s : String) : Except String version :=
  match p.kMatch s.data with
  | none => .error "invalid version string"
  | some m =>
    match version.parseFields p m with
    | .ok v => .ok v
    | .error e => .error ("Failed to parse version string: " ++ e)

/-- Three-way comparison of natural numbers. -/
def natCmp (a b : Nat) : Ordering :=
  if a < b then .lt else if b < a then .gt else .eq

/-- Modelled from the spec: the source defines no comparison operator
for the version class, so the comparator of section 4.6 is taken from
the spec.  Per position, two purely numeric prerelease identifiers
compare as integers; a purely numeric identifier ranks below an
alphanumeric one; two alphanumeric identifiers compare as strings in
ASCII code-point order. -/
def specIdentCmp (a b : List Char) : Ordering :=
  if a.all isDigitC && b.all isDigitC then natCmp (digitsToNat a) (digitsToNat b)
  else if a.all isDigitC then .lt
  else if b.all isDigitC then .gt
  else listCmp charCmp a b

/-- Modelled from the spec: prerelease precedence of section 4.2 — an
empty prerelease outranks any non-empty one, and otherwise the
identifier sequences compare element-wise with shorter-prefix-lower. -/
def specPrereleaseCmp (a b : List (List Char)) : Ordering :=
  match a, b with
  | [], [] => .eq
  | [], _ :: _ => .gt
  | _ :: _, [] => .lt
  | _, _ => listCmp specIdentCmp a b

/-- Modelled from the spec: Version.compare of sections 4.6 and 6 —
major, minor and patch compare numerically with short-circuiting, a
tied triple falls through to the prerelease rule, and build metadata is
excluded. -/
def version.specCompare (a b : version) : Ordering :=
  match natCmp a.major_ b.major_ with
  | .eq =>
    match natCmp a.minor_ b.minor_ with
    | .eq =>
      match natCmp a.patch_ b.patch_ with
      | .eq => specPrereleaseCmp a.prerelease_ b.prerelease_
      | o => o
    | o => o
  | o => o

example : strictMatch "1.2.3".data =
    some ⟨some "1".data, some "2".data, some "3".data, none, none⟩ := by decide
example : strictMatch "1.2".data = none := by decide
example : looseMatch "1.2".data =
    some ⟨some "1".data, some "2".data, none, none, none⟩ := by decide
example : looseMatch "v1".data =
    some ⟨some "1".data, none, none, none, none⟩ := by decide
example : strictMatch "v1.2.3".data = none := by decide
example : strictMatch "01.2.3".data = none := by decide
example : looseMatch "01.2.3".data = none := by decide
example : strictMatch "1.0.0-beta.2+x-y.7".data =
    some ⟨some "1".data, some "0".data, some "0".data,
          some "beta.2".data, some "x-y.7".data⟩ := by decide
example : strictMatch "1.0.0-".data = none := by decide
example : strictMatch "1.0.0+".data = none := by decide
example : strictMatch "1.0.0-a..b".data = none := by decide
example : strictMatch "1.2.3.4".data = none := by decide
example : strictMatch "1.0.0-0a".data =
    some ⟨some "1".data, some "0".data, some "0".data, some "0a".data, none⟩ := by decide
example : strictMatch "1.0.0-01".data = none := by decide
example : version.parse .strict "1.2.3" = .ok ⟨1, 2, 3, [], []⟩ := by decide
example : version.parse .loose "1.2" = .ok ⟨1, 2, 0, [], []⟩ := by decide
example : version.parse .strict "1.2" = .error "invalid version string" := by decide
example : version.parse .strict "1.2.3-0a" =
    .error "Failed to parse version string: Leading zero in prerelease part." := by decide
example : version.parse .strict "1.0.0+b.1" =
    .error "Failed to parse version string: Empty build meta." := by decide
example : version.parse .strict "1.0.0+build1" = .ok ⟨1, 0, 0, [], "build1".data⟩ := by decide

/-!
Helper lemmas about the matchers, the field pipeline and the
comparators.
-/

lemma mkStrict_groups (num : List Char) (pre bld : Option (List Char)) (m : RMatch)
    (h : mkStrict num pre bld = some m) :
    (∃ a, m.g1 = some a ∧ numericCore a = true) ∧
    (∃ b, m.g2 = some b ∧ numericCore b = true) ∧
    (∃ c, m.g3 = some c ∧ numericCore c = true) := by
  unfold mkStrict at h
  split at h
  · rename_i a b c hsplit
    split at h
    · rename_i hcond
      simp only [Bool.and_eq_true] at hcond
      cases h
      exact ⟨⟨a, rfl, hcond.1.1.1.1⟩, ⟨b, rfl, hcond.1.1.1.2⟩, ⟨c, rfl, hcond.1.1.2⟩⟩
    · cases h
  · cases h

lemma mkLoose_groups (num0 : List Char) (pre bld : Option (List Char)) (m : RMatch)
    (h : mkLoose num0 pre bld = some m) :
    (∃ a, m.g1 = some a ∧ numericCore a = true) ∧
    (∀ b, m.g2 = some b → numericCore b = true) ∧
    (∀ c, m.g3 = some c → numericCore c = true) := by
  unfold mkLoose at h
  split at h
  · rename_i a hsplit
    split at h
    · rename_i hcond
      simp only [Bool.and_eq_true] at hcond
      cases h
      refine ⟨⟨a, rfl, hcond.1.1⟩, ?_, ?_⟩
      · intro b hb
        cases hb
      · intro c hc
        cases hc
    · cases h
  · rename_i a b hsplit
    split at h
    · rename_i hcond
      simp only [Bool.and_eq_true] at hcond
      cases h
      refine ⟨⟨a, rfl, hcond.1.1.1⟩, ?_, by intro c hc; cases hc⟩
      intro x hx
      cases hx
      exact hcond.1.1.2
    · cases h
  · rename_i a b c hsplit
    split at h
    · rename_i hcond
      simp only [Bool.and_eq_true] at hcond
      cases h
      refine ⟨⟨a, rfl, hcond.1.1.1.1⟩, ?_, ?_⟩
      · intro x hx
        cases hx
        exact hcond.1.1.1.2
      · intro x hx
        cases hx
        exact hcond.1.1.2
    · cases h
  · cases h

lemma kMatch_groups (p : Policy) (s : List Char) (m : RMatch)
    (h : p.kMatch s = some m) :
    (∃ a, m.g1 = some a ∧ numericCore a = true) ∧
    (∀ b, m.g2 = some b → numericCore b = true) ∧
    (∀ c, m.g3 = some c → numericCore c = true) := by
  cases p with
  | strict =>
    replace h : strictMatch s = some m := h
    unfold strictMatch at h
    split at h
    · cases h
    · obtain ⟨⟨a, ha, hna⟩, ⟨b, hb, hnb⟩, ⟨c, hc, hnc⟩⟩ := mkStrict_groups _ _ _ _ h
      refine ⟨⟨a, ha, hna⟩, ?_, ?_⟩
      · intro x hx
        rw [hb] at hx
        cases hx
        exact hnb
      · intro x hx
        rw [hc] at hx
        cases hx
        exact hnc
  | loose =>
    replace h : looseMatch s = some m := h
    unfold looseMatch at h
    split at h
    · cases h
    · exact mkLoose_groups _ _ _ _ h

lemma kMatch_strict_present (s : List Char) (m : RMatch)
    (h : Policy.strict.kMatch s = some m) :
    m.g1.isSome ∧ m.g2.isSome ∧ m.g3.isSome := by
  replace h : strictMatch s = some m := h
  unfold strictMatch at h
  split at h
  · cases h
  · obtain ⟨⟨a, ha, _⟩, ⟨b, hb, _⟩, ⟨c, hc, _⟩⟩ := mkStrict_groups _ _ _ _ h
    exact ⟨by rw [ha]; rfl, by rw [hb]; rfl, by rw [hc]; rfl⟩

lemma validateSchema_ok (p : Policy) (s : List Char) (m : RMatch)
    (h : p.kMatch s = some m) :
    p.validateSchema m = .ok () := by
  obtain ⟨⟨a, ha, _⟩, _, _⟩ := kMatch_groups p s m h
  cases p with
  | strict =>
    obtain ⟨_, h2, h3⟩ := kMatch_strict_present s m h
    obtain ⟨b, hb⟩ := Option.isSome_iff_exists.mp h2
    obtain ⟨c, hc⟩ := Option.isSome_iff_exists.mp h3
    show (if m.g1.isNone then Except.error "Major version is required"
      else if m.g2.isNone then Except.error "Major version is required"
      else if m.g3.isNone then Except.error "Patch version is required"
      else Except.ok ()) = Except.ok ()
    rw [ha, hb, hc]
    simp
  | loose =>
    show (if m.g1.isNone then Except.error "Major version is required"
      else Except.ok ()) = Except.ok ()
    rw [ha]
    simp

lemma exBind_ok (a : α) (f : α → Except String β) :
    (Except.ok a).bind f = f a := rfl

lemma exBind_error (e : String) (f : α → Except String β) :
    (Except.error e : Except String α).bind f = .error e := rfl

lemma numericCore_digits (t : List Char) (h : numericCore t = true) :
    (!t.isEmpty && t.all isDigitC) = true := by
  unfold numericCore at h
  simp only [Bool.and_eq_true] at h ⊢
  exact h.1

lemma convertNumeric_ok_of (t : List Char) (n : String)
    (h1 : (!t.isEmpty && t.all isDigitC) = true) (hlt : digitsToNat t < 2 ^ 64) :
    convertNumeric t n = .ok (digitsToNat t) := by
  unfold convertNumeric
  rw [h1, if_pos rfl, if_pos hlt]

lemma convertNumeric_overflow (t : List Char) (n : String)
    (h1 : (!t.isEmpty && t.all isDigitC) = true) (hge : 2 ^ 64 ≤ digitsToNat t) :
    convertNumeric t n = .error n := by
  unfold convertNumeric
  rw [h1, if_pos rfl, if_neg (Nat.not_lt.mpr hge)]

lemma convertNumeric_error_name (t : List Char) (n : String) (e : String)
    (h : convertNumeric t n = .error e) : e = n := by
  unfold convertNumeric at h
  split at h
  · split at h
    · cases h
    · cases h
      rfl
  · cases h
    rfl

lemma part_parse_ok (t v : List Char) (h : prerelease.part.parse t = .ok v) :
    v = t := by
  unfold prerelease.part.parse at h
  split at h
  · cases h
  · split at h
    · cases h
    · cases h
      rfl

lemma part_parse_error_msg (t : List Char) (e : String)
    (h : prerelease.part.parse t = .error e) :
    e = "Empty prerelease part." ∨ e = "Leading zero in prerelease part." := by
  unfold prerelease.part.parse at h
  split at h
  · cases h
    exact Or.inl rfl
  · split at h
    · cases h
      exact Or.inr rfl
    · cases h

lemma parseParts_ok_iff (l r : List (List Char))
    (h : prerelease.parseParts l = .ok r) :
    r = l ∧ ∀ t ∈ l, prerelease.part.parse t = .ok t := by
  induction l generalizing r with
  | nil =>
    unfold prerelease.parseParts at h
    cases h
    exact ⟨rfl, by intro t ht; cases ht⟩
  | cons t ts ih =>
    unfold prerelease.parseParts at h
    split at h
    · cases h
    · rename_i v hv
      split at h
      · cases h
      · rename_i vs hvs
        cases h
        obtain ⟨hr, hall⟩ := ih vs hvs
        have hvt := part_parse_ok t v hv
        subst hvt
        subst hr
        refine ⟨rfl, ?_⟩
        intro x hx
        cases hx with
        | head => exact hv
        | tail _ hx2 => exact hall x hx2

lemma parseParts_error_msg (l : List (List Char)) (e : String)
    (h : prerelease.parseParts l = .error e) :
    e = "Empty prerelease part." ∨ e = "Leading zero in prerelease part." := by
  induction l with
  | nil =>
    unfold prerelease.parseParts at h
    cases h
  | cons t ts ih =>
    unfold prerelease.parseParts at h
    split at h
    · cases h
      exact part_parse_error_msg t e (by assumption)
    · split at h
      · cases h
        exact ih (by assumption)
      · cases h

lemma parseParts_prefix_error (pre : List (List Char)) (seg : List Char)
    (post : List (List Char)) (e : String)
    (hok : ∀ t ∈ pre, prerelease.part.parse t = .ok t)
    (herr : prerelease.part.parse seg = .error e) :
    prerelease.parseParts (pre ++ seg :: post) = .error e := by
  induction pre with
  | nil =>
    unfold prerelease.parseParts
    simp only [List.nil_append]
    rw [herr]
  | cons t ts ih =>
    have ht := hok t (by simp)
    have hrest := ih (fun x hx => hok x (List.mem_cons_of_mem t hx))
    unfold prerelease.parseParts
    simp only [List.cons_append]
    rw [ht, hrest]

lemma prerelease_parse_error_msg (t : List Char) (e : String)
    (h : prerelease.parse t = .error e) :
    e = "Empty prerelease part." ∨ e = "Leading zero in prerelease part." := by
  unfold prerelease.parse at h
  split at h
  · cases h
  · exact parseParts_error_msg _ _ h

lemma build_meta_parse_error_msg (t : List Char) (e : String)
    (h : build_meta.parse t = .error e) : e = "Empty build meta." := by
  unfold build_meta.parse at h
  split at h
  · cases h
    rfl
  · cases h

lemma natCmp_refl (a : Nat) : natCmp a a = .eq := by
  simp [natCmp]

lemma charCmp_refl (c : Char) : charCmp c c = .eq := by
  simp [charCmp]

lemma listCmp_refl (cmp : α → α → Ordering) (hc : ∀ x, cmp x x = .eq)
    (l : List α) : listCmp cmp l l = .eq := by
  induction l with
  | nil => rfl
  | cons x xs ih =>
    unfold listCmp
    rw [hc x]
    exact ih

lemma specIdentCmp_refl (a : List Char) : specIdentCmp a a = .eq := by
  unfold specIdentCmp
  by_cases h : a.all isDigitC = true
  · simp [h, natCmp_refl]
  · simp only [Bool.not_eq_true] at h
    simp [h]
    exact listCmp_refl charCmp charCmp_refl a

lemma specPrereleaseCmp_refl (l : List (List Char)) :
    specPrereleaseCmp l l = .eq := by
  cases l with
  | nil => rfl
  | cons x xs => exact listCmp_refl specIdentCmp specIdentCmp_refl (x :: xs)

lemma parse_of_nomatch (p : Policy) (s : String)
    (hm : p.kMatch s.data = none) :
    version.parse p s = .error "invalid version string" := by
  unfold version.parse
  rw [hm]

lemma parse_of_match (p : Policy) (s : String) (m : RMatch)
    (hm : p.kMatch s.data = some m) :
    version.parse p s =
      match version.parseFields p m with
      | .ok v => .ok v
      | .error e => .error ("Failed to parse version string: " ++ e) := by
  unfold version.parse
  rw [hm]

lemma parseFields_eq_steps (p : Policy) (m : RMatch)
    (hv : p.validateSchema m = .ok ()) :
    version.parseFields p m =
      (convertNumeric (m.g1.getD []) "major").bind (fun major =>
      (match m.g2 with
        | some t => convertNumeric t "minor"
        | none => .ok 0).bind (fun minor =>
      (match m.g3 with
        | some t => convertNumeric t "patch"
        | none => .ok 0).bind (fun patch =>
      (match m.g4 with
        | some t => prerelease.parse t
        | none => .ok []).bind (fun prerel =>
      (match m.g5 with
        | some t => build_meta.parse t
        | none => .ok []).bind (fun meta =>
      .ok ⟨major, minor, patch, prerel, meta⟩))))) := by
  unfold version.parseFields
  rw [hv, exBind_ok]

lemma stageNum_error (o : Option (List Char)) (nm e : String)
    (h : (match o with
           | some t => convertNumeric t nm
           | none => (.ok 0 : Except String Nat)) = .error e) :
    e = nm := by
  cases o with
  | none => cases h
  | some t => exact convertNumeric_error_name t nm e h

lemma stagePre_error (o : Option (List Char)) (e : String)
    (h : (match o with
           | some t => prerelease.parse t
           | none => (.ok [] : Except String (List (List Char)))) = .error e) :
    e = "Empty prerelease part." ∨ e = "Leading zero in prerelease part." := by
  cases o with
  | none => cases h
  | some t => exact prerelease_parse_error_msg t e h

lemma stageBuild_error (o : Option (List Char)) (e : String)
    (h : (match o with
           | some t => build_meta.parse t
           | none => (.ok [] : Except String (List Char))) = .error e) :
    e = "Empty build meta." := by
  cases o with
  | none => cases h
  | some t => exact build_meta_parse_error_msg t e h

lemma parseFields_error_classify (p : Policy) (m : RMatch) (e : String)
    (hv : p.validateSchema m = .ok ())
    (h : version.parseFields p m = .error e) :
    e = "major" ∨ e = "minor" ∨ e = "patch" ∨
    e = "Empty prerelease part." ∨ e = "Leading zero in prerelease part." ∨
    e = "Empty build meta." := by
  rw [parseFields_eq_steps p m hv] at h
  cases hM : convertNumeric (m.g1.getD []) "major" with
  | error eM =>
    rw [hM, exBind_error] at h
    cases h
    exact Or.inl (convertNumeric_error_name _ _ _ hM)
  | ok a =>
    rw [hM, exBind_ok] at h
    cases hN : (match m.g2 with
                 | some t => convertNumeric t "minor"
                 | none => (.ok 0 : Except String Nat)) with
    | error eN =>
      rw [hN, exBind_error] at h
      cases h
      exact Or.inr (Or.inl (stageNum_error _ _ _ hN))
    | ok b =>
      rw [hN, exBind_ok] at h
      cases hP : (match m.g3 with
                   | some t => convertNumeric t "patch"
                   | none => (.ok 0 : Except String Nat)) with
      | error eP =>
        rw [hP, exBind_error] at h
        cases h
        exact Or.inr (Or.inr (Or.inl (stageNum_error _ _ _ hP)))
      | ok c =>
        rw [hP, exBind_ok] at h
        cases hR : (match m.g4 with
                     | some t => prerelease.parse t
                     | none => (.ok [] : Except String (List (List Char)))) with
        | error eR =>
          rw [hR, exBind_error] at h
          cases h
          rcases stagePre_error _ _ hR with h4 | h4
          · exact Or.inr (Or.inr (Or.inr (Or.inl h4)))
          · exact Or.inr (Or.inr (Or.inr (Or.inr (Or.inl h4))))
        | ok r =>
          rw [hR, exBind_ok] at h
          cases hB : (match m.g5 with
                       | some t => build_meta.parse t
                       | none => (.ok [] : Except String (List Char))) with
          | error eB =>
            rw [hB, exBind_error] at h
            cases h
            exact Or.inr (Or.inr (Or.inr (Or.inr (Or.inr (stageBuild_error _ _ hB)))))
          | ok bm =>
            rw [hB, exBind_ok] at h
            cases h

lemma parse_error_classify (p : Policy) (s : String) (e : String)
    (h : version.parse p s = .error e) :
    e = "invalid version string" ∨
    ∃ inner, e = "Failed to parse version string: " ++ inner ∧
      (inner = "major" ∨ inner = "minor" ∨ inner = "patch" ∨
       inner = "Empty prerelease part." ∨
       inner = "Leading zero in prerelease part." ∨
       inner = "Empty build meta.") := by
  cases hm : p.kMatch s.data with
  | none =>
    rw [parse_of_nomatch p s hm] at h
    cases h
    exact Or.inl rfl
  | some m =>
    rw [parse_of_match p s m hm] at h
    cases hf : version.parseFields p m with
    | ok v =>
      rw [hf] at h
      cases h
    | error inner =>
      rw [hf] at h
      cases h
      exact Or.inr ⟨inner, rfl,
        parseFields_error_classify p m inner (validateSchema_ok p s.data m hm) hf⟩

/-!
The claims.
-/

/-- Claim C1: the claim states that purely numeric prerelease identifiers
compare as integers (so beta.2 ranks below beta.11), but the source
prerelease::part::operator<=> compares the raw strings by character
code: evaluating the embedded code on the two cited versions, the
identifier two compares greater than eleven, and the whole prerelease
of 1.0.0-beta.2 compares greater than that of 1.0.0-beta.11; the
numeric rule of the claim (specIdentCmp, modelled from the spec) gives
less on the same identifiers. -/
theorem c1_part_cmp_is_string_only :
    version.parse .strict "1.0.0-beta.2" =
      .ok ⟨1, 0, 0, ["beta".data, "2".data], []⟩ ∧
    version.parse .strict "1.0.0-beta.11" =
      .ok ⟨1, 0, 0, ["beta".data, "11".data], []⟩ ∧
    prerelease.part.cmp "2".data "11".data = .gt ∧
    prerelease.cmp ["beta".data, "2".data] ["beta".data, "11".data] = .gt ∧
    specIdentCmp "2".data "11".data = .lt := by
  refine ⟨by decide, by decide, by decide, by decide, by decide⟩

/-- Claim C2: the claim states that a version with no prerelease outranks an
otherwise-identical version with a prerelease, but the source
prerelease::operator<=> is the vector spaceship operator, under which
the empty parts vector of 1.0.0 compares less than the non-empty parts
vector of 1.0.0-alpha — the opposite order; the rule modelled from the
spec (specPrereleaseCmp) gives greater. -/
theorem c2_empty_prerelease_ranks_lowest_in_code :
    version.parse .strict "1.0.0-alpha" = .ok ⟨1, 0, 0, ["alpha".data], []⟩ ∧
    version.parse .strict "1.0.0" = .ok ⟨1, 0, 0, [], []⟩ ∧
    prerelease.cmp [] ["alpha".data] = .lt ∧
    specPrereleaseCmp [] ["alpha".data] = .gt := by
  refine ⟨by decide, by decide, by decide, by decide⟩

/-- Claim C3: the claim states that identifier validation rejects exactly the
multi-character all-digit identifiers starting with zero, so that 0a is
accepted; the source prerelease::part::parse checks only size and first
character, rejecting every identifier of length greater than one that
starts with the digit zero: 01 is rejected and 0 accepted as claimed,
but 0a is also rejected, and parsing 1.2.3-0a fails. -/
theorem c3_leading_zero_check_overreaches :
    prerelease.part.parse "01".data = .error "Leading zero in prerelease part." ∧
    prerelease.part.parse "0".data = .ok "0".data ∧
    prerelease.part.parse "0a".data = .error "Leading zero in prerelease part." ∧
    version.parse .strict "1.2.3-01" = .error "invalid version string" ∧
    version.parse .strict "1.2.3-0a" =
      .error "Failed to parse version string: Leading zero in prerelease part." := by
  refine ⟨by decide, by decide, by decide, by decide, by decide⟩

/-- Claim C4 counterexample: under the strict policy the anchored pattern
itself requires all three numeric fields, so parsing 1.2 fails at the
pattern-match stage with the generic invalid-version-string error, not
with a field-specific missing-field message as the claim states. -/
theorem c4_counterexample :
    version.parse .strict "1.2" = .error "invalid version string" ∧
    "invalid version string" ≠ "Major version is required" ∧
    "invalid version string" ≠ "Minor version is required" ∧
    "invalid version string" ≠ "Patch version is required" := by
  refine ⟨by decide, by decide, by decide, by decide⟩

/-- Claim C4 amended: under the strict policy, parse of 1.2 fails with the
generic malformed-input error (the pattern requires all three fields,
so the field-specific check is never reached); under the loose policy,
parse of 1.2 succeeds with major 1, minor 2, patch 0. -/
theorem c4_amended :
    version.parse .strict "1.2" = .error "invalid version string" ∧
    version.parse .loose "1.2" = .ok ⟨1, 2, 0, [], []⟩ := by
  refine ⟨by decide, by decide⟩

/-- Claim C5: the comparator modelled from the spec (the source has none) is
insensitive to build metadata: any two versions agreeing on the numeric
triple and the prerelease compare equal whatever their build metadata,
and in particular the parses of 1.0.0+build1 and 1.0.0+build2 differ
only in build metadata and compare equal. -/
theorem c5_compare_ignores_build_meta :
    (∀ a b : version, a.major_ = b.major_ → a.minor_ = b.minor_ →
      a.patch_ = b.patch_ → a.prerelease_ = b.prerelease_ →
      version.specCompare a b = .eq) ∧
    (version.parse .strict "1.0.0+build1" = .ok ⟨1, 0, 0, [], "build1".data⟩ ∧
     version.parse .strict "1.0.0+build2" = .ok ⟨1, 0, 0, [], "build2".data⟩ ∧
     "build1".data ≠ "build2".data ∧
     version.specCompare ⟨1, 0, 0, [], "build1".data⟩
       ⟨1, 0, 0, [], "build2".data⟩ = .eq) := by
  constructor
  · intro a b h1 h2 h3 h4
    unfold version.specCompare
    rw [h1, h2, h3, h4, natCmp_refl, natCmp_refl, natCmp_refl]
    exact specPrereleaseCmp_refl _
  · refine ⟨by decide, by decide, by decide, by decide⟩

/-- Claim C5 witness: the metadata-invariance conjunct applied to two
concrete versions that differ only in build metadata. -/
theorem c5_witness :
    version.specCompare ⟨3, 1, 4, ["rc".data, "1".data], "m1".data⟩
      ⟨3, 1, 4, ["rc".data, "1".data], "m2".data⟩ = .eq :=
  c5_compare_ignores_build_meta.1 _ _ rfl rfl rfl rfl

/-- Claim C6: the claim states that build-metadata text is split on dots and
each segment validated; the source build_meta::parse never splits, and
its character check rejects the dot itself, so every dotted
build-metadata text that the policy pattern accepts is then rejected
with the empty-build-meta error; single-segment texts, including ones
with leading zeros, succeed. -/
theorem c6_build_meta_not_split :
    strictMatch "1.0.0+b.1".data =
      some ⟨some "1".data, some "0".data, some "0".data, none, some "b.1".data⟩ ∧
    build_meta.parse "b.1".data = .error "Empty build meta." ∧
    version.parse .strict "1.0.0+b.1" =
      .error "Failed to parse version string: Empty build meta." ∧
    version.parse .strict "1.0.0+build1" = .ok ⟨1, 0, 0, [], "build1".data⟩ ∧
    version.parse .strict "1.0.0+001" = .ok ⟨1, 0, 0, [], "001".data⟩ := by
  refine ⟨by decide, by decide, by decide, by decide, by decide⟩

/-- Claim C7: whenever the pattern matches and a present major, minor or
patch field value does not fit in unsigned 64 bits (earlier fields
being in range), parse fails with the wrapped error naming that field,
which is a different message from every missing-field error; the value
is never wrapped around into a success. -/
theorem c7_numeric_overflow (p : Policy) (s : String) (m : RMatch)
    (hm : p.kMatch s.data = some m) :
    (∀ t, m.g1 = some t → 2 ^ 64 ≤ digitsToNat t →
       version.parse p s = .error "Failed to parse version string: major") ∧
    (∀ t u, m.g1 = some t → digitsToNat t < 2 ^ 64 → m.g2 = some u →
       2 ^ 64 ≤ digitsToNat u →
       version.parse p s = .error "Failed to parse version string: minor") ∧
    (∀ t u w, m.g1 = some t → digitsToNat t < 2 ^ 64 → m.g2 = some u →
       digitsToNat u < 2 ^ 64 → m.g3 = some w → 2 ^ 64 ≤ digitsToNat w →
       version.parse p s = .error "Failed to parse version string: patch") ∧
    ("Failed to parse version string: major" ≠ "Major version is required" ∧
     "Failed to parse version string: major" ≠
       "Failed to parse version string: Major version is required") := by
  have hv := validateSchema_ok p s.data m hm
  obtain ⟨⟨a0, ha0, hna0⟩, hg2, hg3⟩ := kMatch_groups p s.data m hm
  have hparse := parse_of_match p s m hm
  have hsteps := parseFields_eq_steps p m hv
  refine ⟨?_, ?_, ?_, by decide, by decide⟩
  · intro t ht hge
    rw [ha0] at ht
    injection ht with ht
    subst ht
    have hc := convertNumeric_overflow a0 "major" (numericCore_digits a0 hna0) hge
    rw [hparse, hsteps, ha0]
    simp only [Option.getD_some, hc, exBind_error]
    decide
  · intro t u ht hlt hu hgeu
    rw [ha0] at ht
    injection ht with ht
    subst ht
    have hcM := convertNumeric_ok_of a0 "major" (numericCore_digits a0 hna0) hlt
    have hcN := convertNumeric_overflow u "minor" (numericCore_digits u (hg2 u hu)) hgeu
    rw [hparse, hsteps, ha0]
    simp only [Option.getD_some, hcM, exBind_ok, hu, hcN, exBind_error]
    decide
  · intro t u w ht hlt hu hltu hw hgew
    rw [ha0] at ht
    injection ht with ht
    subst ht
    have hcM := convertNumeric_ok_of a0 "major" (numericCore_digits a0 hna0) hlt
    have hcN := convertNumeric_ok_of u "minor" (numericCore_digits u (hg2 u hu)) hltu
    have hcP := convertNumeric_overflow w "patch" (numericCore_digits w (hg3 w hw)) hgew
    rw [hparse, hsteps, ha0]
    simp only [Option.getD_some, hcM, exBind_ok, hu, hcN, hw, hcP, exBind_error]
    decide

/-- Claim C7 witness: a twenty-digit major field overflows unsigned 64 bits
and parse reports the wrapped major overflow error. -/
theorem c7_witness :
    2 ^ 64 ≤ digitsToNat "99999999999999999999".data ∧
    version.parse .strict "99999999999999999999.0.0" =
      .error "Failed to parse version string: major" := by
  have hm : Policy.strict.kMatch "99999999999999999999.0.0".data =
      some ⟨some "99999999999999999999".data, some "0".data, some "0".data,
            none, none⟩ := by decide
  exact ⟨by decide,
    (c7_numeric_overflow .strict "99999999999999999999.0.0" _ hm).1
      "99999999999999999999".data rfl (by decide)⟩

/-- Claim C8 counterexample: the context message actually produced starts
with a capital letter: on 1.2.3-0a the parser reports the wrapped
message with capitalised Failed, which is not the lowercase literal the
claim quotes. -/
theorem c8_counterexample :
    version.parse .strict "1.2.3-0a" =
      .error "Failed to parse version string: Leading zero in prerelease part." ∧
    "Failed to parse version string: Leading zero in prerelease part." ≠
      "failed to parse version string: Leading zero in prerelease part." := by
  refine ⟨by decide, by decide⟩

/-- Claim C8 amended: when the pattern matches and the numeric fields
convert, a failing prerelease or build-metadata validation makes parse
return exactly the inner error prefixed with the context message
(capital F), and any successful parse is the value of the full pipeline, so
no partial version escapes. -/
theorem c8_wrap_preserves_inner (p : Policy) (s : String) (m : RMatch)
    (a b c : Nat) (e : String)
    (hm : p.kMatch s.data = some m)
    (h1 : convertNumeric (m.g1.getD []) "major" = .ok a)
    (h2 : (match m.g2 with
            | some t => convertNumeric t "minor"
            | none => (.ok 0 : Except String Nat)) = .ok b)
    (h3 : (match m.g3 with
            | some t => convertNumeric t "patch"
            | none => (.ok 0 : Except String Nat)) = .ok c) :
    (∀ t, m.g4 = some t → prerelease.parse t = .error e →
       version.parse p s = .error ("Failed to parse version string: " ++ e)) ∧
    (∀ r t, (match m.g4 with
              | some t2 => prerelease.parse t2
              | none => (.ok [] : Except String (List (List Char)))) = .ok r →
       m.g5 = some t → build_meta.parse t = .error e →
       version.parse p s = .error ("Failed to parse version string: " ++ e)) ∧
    (∀ v, version.parse p s = .ok v → version.parseFields p m = .ok v) := by
  have hv := validateSchema_ok p s.data m hm
  have hparse := parse_of_match p s m hm
  have hsteps := parseFields_eq_steps p m hv
  refine ⟨?_, ?_, ?_⟩
  · intro t ht herr
    rw [hparse, hsteps]
    simp only [h1, exBind_ok, h2, h3, ht, herr, exBind_error]
  · intro r t hr ht herr
    rw [hparse, hsteps]
    simp only [h1, exBind_ok, h2, h3, hr, ht, herr, exBind_error]
  · intro v hok
    rw [hparse] at hok
    cases hf : version.parseFields p m with
    | ok w =>
      rw [hf] at hok
      cases hok
      rfl
    | error e2 =>
      rw [hf] at hok
      cases hok

/-- Claim C8 witness: on 1.2.3-0a the numeric fields convert, the prerelease
identifier 0a fails validation, and parse returns the wrapped inner
error. -/
theorem c8_witness :
    version.parse .strict "1.2.3-0a" =
      .error ("Failed to parse version string: " ++
        "Leading zero in prerelease part.") :=
  (c8_wrap_preserves_inner .strict "1.2.3-0a"
    ⟨some "1".data, some "2".data, some "3".data, some "0a".data, none⟩
    1 2 3 "Leading zero in prerelease part."
    (by decide) (by decide) (by decide) (by decide)).1
    "0a".data rfl (by decide)

/-- Claim C9: prerelease parse maps the empty string to the empty prerelease,
no parsed prerelease ever contains an empty identifier (the empty
identifier itself fails validation), and on a non-empty string the
input is split on dots and the first invalid segment aborts the whole
parse with the error of that segment. -/
theorem c9_prerelease_empty_and_abort (str : List Char) :
    (prerelease.parse [] = .ok []) ∧
    (prerelease.part.parse [] = .error "Empty prerelease part.") ∧
    (∀ parts, prerelease.parse str = .ok parts → [] ∉ parts) ∧
    (str ≠ [] → ∀ pre seg post e,
       splitOnDot str = pre ++ seg :: post →
       (∀ t ∈ pre, prerelease.part.parse t = .ok t) →
       prerelease.part.parse seg = .error e →
       prerelease.parse str = .error e) := by
  refine ⟨by decide, by decide, ?_, ?_⟩
  · intro parts hp hmem
    unfold prerelease.parse at hp
    split at hp
    · cases hp
      exact List.not_mem_nil _ hmem
    · obtain ⟨hr, hall⟩ := parseParts_ok_iff _ _ hp
      subst hr
      have hbad := hall [] hmem
      rw [(by decide :
        prerelease.part.parse ([] : List Char) =
          .error "Empty prerelease part.")] at hbad
      cases hbad
  · intro hne pre seg post e hsplit hok herr
    cases str with
    | nil => exact absurd rfl hne
    | cons x xs =>
      show prerelease.parseParts (splitOnDot (x :: xs)) = .error e
      rw [hsplit]
      exact parseParts_prefix_error pre seg post e hok herr

/-- Claim C9 witness: the abort conjunct applied to a..b, whose middle
segment is empty and fails with the empty-part error. -/
theorem c9_witness :
    prerelease.parse "a..b".data = .error "Empty prerelease part." :=
  (c9_prerelease_empty_and_abort "a..b".data).2.2.2 (by decide)
    ["a".data] [] ["b".data] "Empty prerelease part."
    (by decide) (by decide) (by decide)

/-- Claim C10: whenever the anchored pattern of a policy matches, every capture
group that its validateSchema requires is present, so validateSchema
succeeds on every match; consequently every parse error is either the
generic no-match message or a wrapped pipeline error from a fixed list,
and no version-is-required message is ever produced by parse. -/
theorem c10_required_field_unreachable :
    (∀ (p : Policy) (s : List Char) (m : RMatch),
       p.kMatch s = some m → p.validateSchema m = .ok ()) ∧
    (∀ (p : Policy) (s : String) (e : String),
       version.parse p s = .error e →
       e = "invalid version string" ∨
       ∃ inner, e = "Failed to parse version string: " ++ inner ∧
         (inner = "major" ∨ inner = "minor" ∨ inner = "patch" ∨
          inner = "Empty prerelease part." ∨
          inner = "Leading zero in prerelease part." ∨
          inner = "Empty build meta.")) ∧
    (∀ (p : Policy) (s : String) (msg : String),
       msg ∈ ["Major version is required", "Minor version is required",
              "Patch version is required",
              "Failed to parse version string: Major version is required",
              "Failed to parse version string: Patch version is required"] →
       version.parse p s ≠ .error msg) := by
  refine ⟨fun p s m h => validateSchema_ok p s m h,
          fun p s e h => parse_error_classify p s e h, ?_⟩
  intro p s msg hmsg hcontra
  rcases parse_error_classify p s msg hcontra with h | ⟨inner, heq, hin⟩
  · subst h
    revert hmsg
    decide
  · subst heq
    revert hmsg
    rcases hin with h1 | h1 | h1 | h1 | h1 | h1 <;> subst h1 <;> decide

/-- Claim C10 witness: validateSchema succeeds on the concrete strict match
of 1.2.3, and the strict parse failure of 1.2 is not a missing-field
message. -/
theorem c10_witness :
    Policy.strict.validateSchema
      ⟨some "1".data, some "2".data, some "3".data, none, none⟩ = .ok () ∧
    version.parse .strict "1.2" ≠ .error "Major version is required" := by
  constructor
  · exact c10_required_field_unreachable.1 .strict "1.2.3".data _ (by decide)
  · exact c10_required_field_unreachable.2.2 .strict "1.2"
      "Major version is required" (by decide)

example : prerelease.part.parse "alpha".data = .ok "alpha".data := by decide
example : prerelease.part.parse "01".data = .error "Leading zero in prerelease part." := by decide
example : prerelease.part.parse "0a".data = .error "Leading zero in prerelease part." := by decide
example : prerelease.part.parse "0".data = .ok "0".data := by decide
example : prerelease.parse "beta.2".data = .ok ["beta".data, "2".data] := by decide
example : prerelease.parse "".data = .ok [] := by decide
example : prerelease.parse "a..b".data = .error "Empty prerelease part." := by decide
example : build_meta.parse "b.1".data = .error "Empty build meta." := by decide
example : build_meta.parse "001".data = .ok "001".data := by decide
example : prerelease.cmp ["beta".data, "2".data] ["beta".data, "11".data] = .gt := by decide
example : prerelease.cmp [] ["alpha".data] = .lt := by decide
